import Mathlib

/-!
Shallow embedding of the cloud-client core of the gardena-smart-system
integration (the `gardena` package plus its Home-Assistant wrapper), and
proofs of the specification claims about it.

Conventions of the embedding:
* JSON attribute values are modelled by the inductive `Value` (strings and
  integers; numeric JSON values are modelled as integers).
* Python dicts are modelled as association lists with `List.lookup`;
  dict assignment is `insertEntry` (replace when the key exists, append
  otherwise).
* Wall-clock instants are integers (seconds); an ISO-8601 timestamp string
  is modelled by its parsed epoch value, with `none` standing for an
  absent, empty or unparseable timestamp.
* Fallible Python code (dict indexing, list indexing) returns `Except PyErr`.
-/

namespace Gardena

/-- JSON-ish attribute value: a string, an integer, or the "N/A" sentinel
the devices use for never-updated fields (stored in the source as the
Python string "N/A"; kept as a distinguished constructor here so that the
sentinel is not confused with genuine string data). -/
inductive Value where
  | str (s : String)
  | int (n : Int)
  | na
  deriving DecidableEq, Repr

/-- Python runtime errors raised by the embedded code paths. -/
inductive PyErr where
  | keyError
  | indexError
  deriving DecidableEq, Repr

/-- Result of `BaseDevice._calculate_remaining_time`: either an integral
number of seconds or the string "N/A". -/
inductive RemainingTime where
  | na
  | secs (n : Int)
  deriving DecidableEq, Repr

/-- One duration attribute map `{value: ..., timestamp: ...}` as received
from the API.  `value` is the raw "value" entry when present; `timestamp`
is the ISO-8601 "timestamp" entry parsed to epoch seconds, `none` when the
entry is absent, empty or unparseable (the source returns "N/A" in all of
those cases, via the missing-key check, the falsy-string check and the
`ValueError` handler respectively). -/
structure DurationData where
  value : Option Value := none
  timestamp : Option Int := none
  deriving DecidableEq, Repr

/-- `BaseDevice._calculate_remaining_time`: "N/A" unless the value entry is
a positive number and the timestamp parses, otherwise
`int(max(0, value - (now - start)))`.  `now` is the wall clock
(`datetime.now(UTC)`) at the moment of the call. -/
def calculate_remaining_time (duration_data : DurationData) (now : Int) : RemainingTime :=
  match duration_data.value, duration_data.timestamp with
  | some (Value.int d), some ts =>
      if d ≤ 0 then RemainingTime.na
      else RemainingTime.secs (max 0 (d - (now - ts)))
  | _, _ => RemainingTime.na

/-- The `<prefix>_duration`, `<prefix>_duration_timestamp` and
`<prefix>_remaining_time` triple a device keeps for one duration
attribute. -/
structure DurationFields where
  duration : Value := Value.str "N/A"
  duration_timestamp : Value := Value.str "N/A"
  remaining_time : RemainingTime := RemainingTime.na
  deriving DecidableEq, Repr

/-- The `duration_data.get("value", "N/A")` read used by
`set_duration_attributes`. -/
def orNA : Option Value → Value
  | some v => v
  | none => Value.str "N/A"

/-- `BaseDevice.set_duration_attributes` applied to the lookup result of
the named attribute in the fragment's attribute map: when the attribute is
absent nothing changes, otherwise all three fields are overwritten and the
remaining time is recomputed from the wall clock `now` supplied at this
application. -/
def set_duration_attributes (fields : DurationFields)
    (duration_attr : Option DurationData) (now : Int) : DurationFields :=
  match duration_attr with
  | none => fields
  | some dd =>
      { duration := orNA dd.value
        duration_timestamp :=
          match dd.timestamp with
          | some t => Value.int t
          | none => Value.str "N/A"
        remaining_time := calculate_remaining_time dd now }

/-- `MAX_BACKOFF_VALUE` from `smart_system.py`. -/
def MAX_BACKOFF_VALUE : Nat := 900

/-- `SmartSystem.__init__` sets `self.base_delay = 5`. -/
def base_delay : Nat := 5

/-- `SmartSystem.__init__` sets `self.connection_attempts = 0`; no other
assignment to this field exists anywhere in the source. -/
def init_connection_attempts : Nat := 0

/-- `SmartSystem.calculate_backoff_delay`, as a function of the
`self.connection_attempts` field it reads:
`min(self.max_backoff, self.base_delay * (2 ** self.connection_attempts))`. -/
def calculate_backoff_delay (connection_attempts : Nat) : Nat :=
  min MAX_BACKOFF_VALUE (base_delay * 2 ^ connection_attempts)

/-- One JSON fragment of the vendor API: a composite or plain id, a
service-type tag, and an attribute map (each attribute's "value" entry,
modelled directly as the attribute's value). -/
structure Fragment where
  id : String
  type : String
  attributes : List (String × Value) := []
  deriving DecidableEq, Repr

/-- A grouped device map as built by `update_devices`: service type to the
list of fragments of that type. -/
abbrev DeviceMap := List (String × List Fragment)

/-- The variants `DeviceFactory.build` can construct. -/
inductive DeviceVariant where
  | mower
  | sensor
  | soilSensor
  | powerSocket
  | waterControl
  | smartIrrigationControl
  deriving DecidableEq, Repr

/-- A constructed device, reduced to what the claims observe: the variant
chosen by the factory and the device id taken from the COMMON fragment. -/
structure Device where
  variant : DeviceVariant
  id : String
  deriving DecidableEq, Repr

/-- The `device_map["COMMON"][0]["id"]` read every device constructor
performs in `BaseDevice.__init__(self, location, device_map["COMMON"][0]["id"])`:
a `KeyError` when no COMMON group exists, an `IndexError` when the group is
empty. -/
def common_id (device_map : DeviceMap) : Except PyErr String :=
  match device_map.lookup "COMMON" with
  | none => Except.error PyErr.keyError
  | some [] => Except.error PyErr.indexError
  | some (f :: _) => Except.ok f.id

/-- `Mower.__init__` (id from the COMMON fragment). -/
def Mower.build (device_map : DeviceMap) : Except PyErr Device :=
  (common_id device_map).map fun i => { variant := DeviceVariant.mower, id := i }

/-- `PowerSocket.__init__` (id from the COMMON fragment). -/
def PowerSocket.build (device_map : DeviceMap) : Except PyErr Device :=
  (common_id device_map).map fun i => { variant := DeviceVariant.powerSocket, id := i }

/-- `WaterControl.__init__` (id from the COMMON fragment). -/
def WaterControl.build (device_map : DeviceMap) : Except PyErr Device :=
  (common_id device_map).map fun i => { variant := DeviceVariant.waterControl, id := i }

/-- `SmartIrrigationControl.__init__` (id from the COMMON fragment). -/
def SmartIrrigationControl.build (device_map : DeviceMap) : Except PyErr Device :=
  (common_id device_map).map fun i =>
    { variant := DeviceVariant.smartIrrigationControl, id := i }

/-- Modelled from the spec: `sensor.py` is not in the source tree (only
imported by the factory); per spec §4.3 every variant constructor shares
the base contract, deriving the device id from the COMMON fragment. -/
def Sensor.build (device_map : DeviceMap) : Except PyErr Device :=
  (common_id device_map).map fun i => { variant := DeviceVariant.sensor, id := i }

/-- Modelled from the spec: `soil_sensor.py` is not in the source tree
(only imported by the factory); per spec §4.3 every variant constructor
shares the base contract, deriving the device id from the COMMON
fragment. -/
def SoilSensor.build (device_map : DeviceMap) : Except PyErr Device :=
  (common_id device_map).map fun i => { variant := DeviceVariant.soilSensor, id := i }

/-- `DeviceFactory.build`: the if-chain over present service types.  The
SENSOR branch reads `device_map["SENSOR"][0]["attributes"]` to test for an
`ambientTemperature` attribute; the VALVE branch counts the valve
fragments.  Returns `Except.ok none` (`return None`) when no recognized
combination matches. -/
def DeviceFactory.build (device_map : DeviceMap) : Except PyErr (Option Device) :=
  match device_map.lookup "MOWER" with
  | some _ => (Mower.build device_map).map some
  | none =>
  match device_map.lookup "SENSOR" with
  | some [] => Except.error PyErr.indexError
  | some (f :: _) =>
      if (f.attributes.lookup "ambientTemperature").isSome then
        (Sensor.build device_map).map some
      else
        (SoilSensor.build device_map).map some
  | none =>
  match device_map.lookup "POWER_SOCKET" with
  | some _ => (PowerSocket.build device_map).map some
  | none =>
  match device_map.lookup "VALVE" with
  | some valves =>
      if valves.length > 1 then
        (SmartIrrigationControl.build device_map).map some
      else
        (WaterControl.build device_map).map some
  | none => Except.ok none

/-- The shared fields `BaseDevice.__init__` creates, all initialised to
the "N/A" sentinel (`id`, `location`, `type` and the callback list are
carried elsewhere in the embedding). -/
structure CommonState where
  battery_level : Value := Value.str "N/A"
  battery_state : Value := Value.str "N/A"
  name : Value := Value.str "N/A"
  rf_link_level : Value := Value.str "N/A"
  rf_link_state : Value := Value.str "N/A"
  serial : Value := Value.str "N/A"
  model_type : Value := Value.str "N/A"
  deriving DecidableEq, Repr

/-- The seven field names `update_common_data` writes through `setattr`. -/
inductive CommonField where
  | battery_level
  | battery_state
  | name
  | rf_link_level
  | rf_link_state
  | serial
  | model_type
  deriving DecidableEq, Repr

/-- The API attribute name `update_common_data` pairs with each field. -/
def CommonField.attrName : CommonField → String
  | CommonField.battery_level => "batteryLevel"
  | CommonField.battery_state => "batteryState"
  | CommonField.name => "name"
  | CommonField.rf_link_level => "rfLinkLevel"
  | CommonField.rf_link_state => "rfLinkState"
  | CommonField.serial => "serial"
  | CommonField.model_type => "modelType"

/-- `getattr` on a common field. -/
def CommonState.get (s : CommonState) : CommonField → Value
  | CommonField.battery_level => s.battery_level
  | CommonField.battery_state => s.battery_state
  | CommonField.name => s.name
  | CommonField.rf_link_level => s.rf_link_level
  | CommonField.rf_link_state => s.rf_link_state
  | CommonField.serial => s.serial
  | CommonField.model_type => s.model_type

/-- `setattr` on a common field. -/
def CommonState.set (s : CommonState) : CommonField → Value → CommonState
  | CommonField.battery_level, v => { s with battery_level := v }
  | CommonField.battery_state, v => { s with battery_state := v }
  | CommonField.name, v => { s with name := v }
  | CommonField.rf_link_level, v => { s with rf_link_level := v }
  | CommonField.rf_link_state, v => { s with rf_link_state := v }
  | CommonField.serial, v => { s with serial := v }
  | CommonField.model_type, v => { s with model_type := v }

/-- `BaseDevice.set_attribute_value`: write the field only when the named
attribute is present in the fragment's attribute map. -/
def set_attribute_value (s : CommonState) (field_name : CommonField)
    (fragment : Fragment) (attribute_name : String) : CommonState :=
  match fragment.attributes.lookup attribute_name with
  | some v => s.set field_name v
  | none => s

/-- `BaseDevice.update_common_data`: the seven `set_attribute_value`
applications, in source order. -/
def update_common_data (s : CommonState) (fragment : Fragment) : CommonState :=
  let s1 := set_attribute_value s CommonField.battery_level fragment "batteryLevel"
  let s2 := set_attribute_value s1 CommonField.battery_state fragment "batteryState"
  let s3 := set_attribute_value s2 CommonField.name fragment "name"
  let s4 := set_attribute_value s3 CommonField.rf_link_level fragment "rfLinkLevel"
  let s5 := set_attribute_value s4 CommonField.rf_link_state fragment "rfLinkState"
  let s6 := set_attribute_value s5 CommonField.serial fragment "serial"
  let s7 := set_attribute_value s6 CommonField.model_type fragment "modelType"
  s7

/-- `BaseDevice.update_data` on the base device: common fields are applied
only when the fragment type is COMMON; `update_device_specific_data` is a
no-op on the base class, and the registered callbacks observe but do not
change the state. -/
def update_data (s : CommonState) (fragment : Fragment) : CommonState :=
  if fragment.type = "COMMON" then update_common_data s fragment else s

/-- Dict assignment `m[k] = v` on the association-list model of a Python
dict: replace the value in place when the key exists, append otherwise. -/
def insertEntry {α : Type} : List (String × α) → String → α → List (String × α)
  | [], k, v => [(k, v)]
  | p :: m, k, v => if p.1 = k then (k, v) :: m else p :: insertEntry m k v

/-- A Location, reduced to what the claims observe.  Modelled from the
spec: `gardena/location.py` is not in the source tree (only its callers
are); per spec §3 a Location is `{id, name, deviceMap}`, created from one
entry of the locations response and merged in place by
`update_location_data`. -/
structure LocationState where
  id : String
  name : Value := Value.str "N/A"
  deriving DecidableEq, Repr

/-- Modelled from the spec: `Location.update_location_data` merges a
LOCATION frame or response entry into the location — the name attribute is
applied when present, the id is fixed at construction. -/
def update_location_data (loc : LocationState) (frame : Fragment) : LocationState :=
  match frame.attributes.lookup "name" with
  | some v => { loc with name := v }
  | none => loc

/-- Modelled from the spec: `Location(self, location)` followed by
`update_location_data(location)` as performed by `update_locations` — a
fresh location with the entry's id, then the entry merged into it. -/
def Location.build (entry : Fragment) : LocationState :=
  update_location_data { id := entry.id } entry

/-- The body of the locations GET response, after
`__call_smart_system_get`:  `empty` is the `None` return (error response),
`noData` a JSON body without a "data" key, `data` the "data" array. -/
inductive LocationsResponse where
  | empty
  | noData
  | data (entries : List Fragment)
  deriving DecidableEq, Repr

/-- `SmartSystem.update_locations`, state-passing over `self.locations`:
returns the raised-`ConnectionError` flag together with the location map
after the call.  The map is rebuilt from scratch (`self.locations = {}`
then one insertion per response entry) only on the success path; every
error path leaves the previous map in place. -/
def update_locations (locations : List (String × LocationState))
    (resp : LocationsResponse) :
    Except Unit Unit × List (String × LocationState) :=
  match resp with
  | LocationsResponse.empty => (Except.error (), locations)
  | LocationsResponse.noData => (Except.error (), locations)
  | LocationsResponse.data entries =>
      if entries.length < 1 then (Except.error (), locations)
      else
        (Except.ok (),
         entries.foldl (fun m e => insertEntry m e.id (Location.build e)) [])

/-- `SmartSystem.parse_location`: the unknown-id case only logs and then
still evaluates `self.locations[location["id"]]`, which raises `KeyError`;
the known-id case merges the frame into the owning location. -/
def parse_location (locations : List (String × LocationState))
    (frame : Fragment) : Except PyErr (List (String × LocationState)) :=
  match locations.lookup frame.id with
  | none => Except.error PyErr.keyError
  | some loc =>
      Except.ok (insertEntry locations frame.id (update_location_data loc frame))

/-- `self.supported_services` from `SmartSystem.__init__`. -/
def supported_services : List String :=
  ["COMMON", "VALVE", "VALVE_SET", "SENSOR", "MOWER", "POWER_SOCKET", "DEVICE"]

/-- The dispatch outcome of `SmartSystem.on_message`: the LOCATION branch
with its effect on the location map, the device branch
(`parse_device`), or the logged-and-dropped unknown branch. -/
inductive MessageAction where
  | location (result : Except PyErr (List (String × LocationState)))
  | device
  | unknown
  deriving Repr

/-- `SmartSystem.on_message`: dispatch on the frame's top-level type. -/
def on_message (locations : List (String × LocationState))
    (frame : Fragment) : MessageAction :=
  if frame.type = "LOCATION" then
    MessageAction.location (parse_location locations frame)
  else if supported_services.contains frame.type then
    MessageAction.device
  else
    MessageAction.unknown

/-- What one iteration of the read loop inside
`SmartSystem.__launch_websocket_loop` observes after the shutdown and
2-hour checks: a received frame, a 5-second receive timeout after which
the liveness probe finds the socket alive or closed, or a
server-initiated close (`ConnectionClosed`). -/
inductive ReadEvent where
  | frame
  | timeoutAlive
  | timeoutClosed
  | serverClosed
  deriving DecidableEq, Repr

/-- How the read loop of `__launch_websocket_loop` ends.  `capReached`,
`closedDetected` and `serverClose` are all `break`s: the function then
runs its `finally` close and returns normally.  `stopRequested` is the
`while not self.should_stop` guard; `exhausted` marks the end of the
modelled event trace with the loop still reading. -/
inductive LoopExit where
  | capReached
  | closedDetected
  | serverClose
  | stopRequested
  | exhausted
  deriving DecidableEq, Repr

/-- The read loop of `SmartSystem.__launch_websocket_loop` over a trace of
(wall-clock instant at the top of the iteration, observed event) pairs:
per iteration it first checks `self.should_stop`, then breaks when
`current_time - connection_start_time >= max_connection_duration`, and
only then awaits the socket. -/
def launch_websocket_loop (connection_start_time max_connection_duration : Nat)
    (should_stop : Bool) : List (Nat × ReadEvent) → LoopExit
  | [] => LoopExit.exhausted
  | (now, ev) :: rest =>
      if should_stop then LoopExit.stopRequested
      else if max_connection_duration ≤ now - connection_start_time then
        LoopExit.capReached
      else
        match ev with
        | ReadEvent.frame =>
            launch_websocket_loop connection_start_time max_connection_duration
              should_stop rest
        | ReadEvent.timeoutAlive =>
            launch_websocket_loop connection_start_time max_connection_duration
              should_stop rest
        | ReadEvent.timeoutClosed => LoopExit.closedDetected
        | ReadEvent.serverClosed => LoopExit.serverClose

/-- `max_connection_duration = 2 * 60 * 60` from `SmartSystem.start_ws`. -/
def max_connection_duration : Nat := 2 * 60 * 60

/-- `max_consecutive_failures = 5` from `SmartSystem.start_ws`. -/
def max_consecutive_failures : Nat := 5

/-- How one `start_ws` attempt (the `__get_ws_url` call followed by
`__launch_websocket_loop`) ends: a normal return of the read loop
(including the 2-hour-cap break), one of the
`ConnectionClosed`/`InvalidTokenError`/`OAuthError` exceptions, a
`RateLimitException`, the `AttributeError`-mentioning-'closed' case that
breaks out of the `while` loop, or any other exception. -/
inductive AttemptOutcome where
  | success
  | connClosed
  | rateLimit
  | attrClosedBreak
  | otherError
  deriving DecidableEq, Repr

/-- The observables of one iteration of the `while not self.should_stop`
loop in `SmartSystem.start_ws`. -/
structure IterResult where
  connection_attempts : Nat
  except_delay : Option Nat
  slept_delay : Option Nat
  continues : Bool
  deriving DecidableEq, Repr

/-- One iteration of the reconnect loop in `SmartSystem.start_ws`, given
the object's `self.connection_attempts` field, the local
`connection_attempts` counter, the shutdown flag as observed at the end of
the iteration, and the attempt's outcome.  `except_delay` is the `delay`
each `except` branch computes; the iteration then unconditionally
re-assigns `delay = self.calculate_backoff_delay()` before sleeping (line
380), so `slept_delay` — the value passed to `_wait_with_cancel` — is the
object-level backoff on every non-break path. -/
def start_ws_iter (self_connection_attempts connection_attempts : Nat)
    (should_stop : Bool) (outcome : AttemptOutcome) : IterResult :=
  let slept : Option Nat :=
    if should_stop then none
    else some (calculate_backoff_delay self_connection_attempts)
  match outcome with
  | AttemptOutcome.success =>
      { connection_attempts := 0
        except_delay := none
        slept_delay := slept
        continues := !should_stop }
  | AttemptOutcome.connClosed =>
      let a := connection_attempts + 1
      { connection_attempts := a
        except_delay :=
          some (if max_consecutive_failures ≤ a then
                  min 60 (10 + (a - max_consecutive_failures) * 10)
                else 10)
        slept_delay := slept
        continues := !should_stop }
  | AttemptOutcome.rateLimit =>
      let a := connection_attempts + 1
      { connection_attempts := a
        except_delay := some (calculate_backoff_delay self_connection_attempts)
        slept_delay := slept
        continues := !should_stop }
  | AttemptOutcome.attrClosedBreak =>
      { connection_attempts := connection_attempts
        except_delay := none
        slept_delay := none
        continues := false }
  | AttemptOutcome.otherError =>
      let a := connection_attempts + 1
      { connection_attempts := a
        except_delay := some (min 30 (5 + a * 2))
        slept_delay := slept
        continues := !should_stop }

/-- The state of the supervisor's background task as
`asyncio.Task` exposes it: `done()` is true for both the completed and the
cancelled task. -/
inductive TaskState where
  | running
  | done
  | cancelled
  deriving DecidableEq, Repr

/-- The state the supervisor claims observe: the wrapper's
`_shutdown_event` and `_ws_task`, and the wrapped client's
`should_stop` and `is_ws_connected` fields. -/
structure SupervisorState where
  shutdown_event : Bool
  ws_task : Option TaskState
  should_stop : Bool
  is_ws_connected : Bool
  deriving DecidableEq, Repr

/-- `GardenaSmartSystem.__init__`: no task yet, events clear. -/
def supervisor_init : SupervisorState :=
  { shutdown_event := false
    ws_task := none
    should_stop := false
    is_ws_connected := false }

/-- `SmartSystem.quit`: sets `self.should_stop`; the token revocation is
an outbound POST with no effect on the modelled state. -/
def SmartSystem.quit (s : SupervisorState) : SupervisorState :=
  { s with should_stop := true }

/-- `GardenaSmartSystem.stop`: set the shutdown event, cancel the task
when it exists and is not done, then `await self.smart_system.quit()`. -/
def GardenaSmartSystem.stop (s : SupervisorState) : SupervisorState :=
  let s1 := { s with shutdown_event := true }
  let s2 :=
    match s1.ws_task with
    | some TaskState.running => { s1 with ws_task := some TaskState.cancelled }
    | _ => s1
  SmartSystem.quit s2

/-- `GardenaSmartSystem.is_websocket_connected`: task exists, not done,
and the client reports the socket open. -/
def is_websocket_connected (s : SupervisorState) : Bool :=
  (s.ws_task == some TaskState.running) && s.is_ws_connected

/-- C7: for every attempt count `n ≥ 0` the computed reconnect backoff
delay equals `min(900, 5 * 2^n)` seconds; attempts 0..5 yield
5, 10, 20, 40, 80, 160 seconds, attempt 10 is clamped to 900 seconds, and
the delay never exceeds the 900-second cap. -/
theorem C7_backoff_delay :
    (∀ n : Nat, calculate_backoff_delay n = min 900 (5 * 2 ^ n)) ∧
    calculate_backoff_delay 0 = 5 ∧
    calculate_backoff_delay 1 = 10 ∧
    calculate_backoff_delay 2 = 20 ∧
    calculate_backoff_delay 3 = 40 ∧
    calculate_backoff_delay 4 = 80 ∧
    calculate_backoff_delay 5 = 160 ∧
    calculate_backoff_delay 10 = 900 ∧
    ∀ n : Nat, calculate_backoff_delay n ≤ 900 := by
  refine ⟨fun n => rfl, ?_, ?_, ?_, ?_, ?_, ?_, ?_, fun n => min_le_left _ _⟩ <;> decide

/-- C1 counterexample: the claim quantifies over every duration value, but
for the duration value 0 (with a valid timestamp and zero elapsed time)
the code returns the "N/A" sentinel, not `max(0, 0 - 0) = 0` as the claim
predicts. -/
theorem C1_zero_duration_na :
    calculate_remaining_time
        { value := some (Value.int 0), timestamp := some 0 } 0
      = RemainingTime.na ∧
    RemainingTime.na ≠ RemainingTime.secs (max 0 (0 - 0)) := by
  exact ⟨rfl, by decide⟩

/-- C1 (amended): for every positive duration `d` and elapsed `e ≥ 0` the
remaining-time computation returns `max(0, d - e)`; in particular
`remaining(d, d) = 0` and `remaining(d, e) = 0` for `e > d`; and on each
application `set_duration_attributes` recomputes the remaining time from
the wall clock `now` supplied at that application (never from a cached
value). -/
theorem C1_remaining_time :
    ∀ d ts e : Int, 0 < d → 0 ≤ e →
      (calculate_remaining_time
          { value := some (Value.int d), timestamp := some ts } (ts + e)
        = RemainingTime.secs (max 0 (d - e))) ∧
      (calculate_remaining_time
          { value := some (Value.int d), timestamp := some ts } (ts + d)
        = RemainingTime.secs 0) ∧
      (d < e →
        calculate_remaining_time
            { value := some (Value.int d), timestamp := some ts } (ts + e)
          = RemainingTime.secs 0) ∧
      (∀ (fields : DurationFields) (dd : DurationData) (now : Int),
        (set_duration_attributes fields (some dd) now).remaining_time
          = calculate_remaining_time dd now) := by
  intro d ts e hd he
  have hd0 : ¬ d ≤ 0 := by omega
  have hts : ts + e - ts = e := by ring
  have htd : ts + d - ts = d := by ring
  refine ⟨?_, ?_, ?_, fun fields dd now => rfl⟩
  · simp only [calculate_remaining_time, if_neg hd0, hts]
  · simp only [calculate_remaining_time, if_neg hd0, htd, sub_self, max_self]
  · intro hde
    simp only [calculate_remaining_time, if_neg hd0, hts]
    have : max (0 : Int) (d - e) = 0 := max_eq_left (by omega)
    rw [this]

/-- C1 witness: the amended statement at duration 100, timestamp 50,
elapsed 30. -/
theorem C1_remaining_time_witness :
    (0 : Int) < 100 ∧ (0 : Int) ≤ 30 ∧
    calculate_remaining_time
        { value := some (Value.int 100), timestamp := some 50 } (50 + 30)
      = RemainingTime.secs (max 0 (100 - 30)) :=
  ⟨by decide, by decide, (C1_remaining_time 100 50 30 (by decide) (by decide)).1⟩

/-- C3: the delay each `except` branch of `start_ws` computes is
unconditionally re-assigned to `self.calculate_backoff_delay()` before the
sleep, and `self.connection_attempts` is never incremented, so after a
connection-closed error on the first attempt the loop computes the
specified 10-second delay but actually sleeps 5 seconds — the code
contradicts the claimed (and clearly intended) per-error-class override. -/
theorem C3_override_delay_discarded :
    (start_ws_iter init_connection_attempts 0 false
        AttemptOutcome.connClosed).except_delay = some 10 ∧
    (start_ws_iter init_connection_attempts 0 false
        AttemptOutcome.connClosed).slept_delay = some 5 ∧
    (start_ws_iter init_connection_attempts 0 false
        AttemptOutcome.rateLimit).slept_delay
      = some (calculate_backoff_delay init_connection_attempts) ∧
    (5 : Nat) ≠ 10 := by
  decide

/-- C4: when a LOCATION frame's id is not in the location map,
`parse_location` logs "Location not found" but then still evaluates
`self.locations[location["id"]]`, raising `KeyError` — the processing is
not the claimed no-op.  A frame whose id is known is merged into the
matching location. -/
theorem C4_unknown_location_keyerror :
    on_message []
        { id := "loc-1", type := "LOCATION",
          attributes := [("name", Value.str "Garden")] }
      = MessageAction.location (Except.error PyErr.keyError) ∧
    parse_location [("loc-1", { id := "loc-1" })]
        { id := "loc-1", type := "LOCATION",
          attributes := [("name", Value.str "Garden")] }
      = Except.ok [("loc-1", { id := "loc-1", name := Value.str "Garden" })] := by
  exact ⟨rfl, rfl⟩

/-- C2 counterexample: a session that reaches the 2-hour cap ends with the
read loop breaking out (`capReached`), which `start_ws` treats as a
successful attempt — and the success path re-assigns the local
consecutive-failure counter to 0.  With the counter at 3 when the session
opened, it is 0 after the exit, not the claimed unchanged value 3. -/
theorem C2_cap_resets_counter :
    launch_websocket_loop 0 max_connection_duration false
        [(7201, ReadEvent.frame)] = LoopExit.capReached ∧
    (start_ws_iter init_connection_attempts 3 false
        AttemptOutcome.success).connection_attempts = 0 ∧
    (start_ws_iter init_connection_attempts 3 false
        AttemptOutcome.success).connection_attempts ≠ 3 := by
  decide

/-- C2 (amended): once a WebSocket session has been open for at least the
2-hour cap, the read loop proactively breaks out of the receive loop
(closing the socket in its `finally` block) and the reconnect loop
continues to the next attempt; this exit runs the successful-attempt path,
which never increments the consecutive-failure counter but resets it to 0
(so in particular a counter that was already 0 is unchanged, and the exit
feeds no backoff growth). -/
theorem C2_two_hour_cap :
    ∀ (start now : Nat) (ev : ReadEvent) (rest : List (Nat × ReadEvent))
      (sa a : Nat),
      max_connection_duration ≤ now - start →
      launch_websocket_loop start max_connection_duration false
          ((now, ev) :: rest) = LoopExit.capReached ∧
      (start_ws_iter sa a false AttemptOutcome.success).connection_attempts
        = 0 ∧
      (start_ws_iter sa a false AttemptOutcome.success).continues = true ∧
      (start_ws_iter sa a false AttemptOutcome.success).slept_delay
        = some (calculate_backoff_delay sa) := by
  intro start now ev rest sa a h
  refine ⟨?_, rfl, rfl, rfl⟩
  simp only [launch_websocket_loop, Bool.false_eq_true, if_false, if_pos h]

/-- C2 witness: the amended statement for a session started at 0 observed
at 7201 seconds (2 hours plus one second) with counters 0 and 3. -/
theorem C2_two_hour_cap_witness :
    max_connection_duration ≤ 7201 - 0 ∧
    launch_websocket_loop 0 max_connection_duration false
        [(7201, ReadEvent.timeoutAlive)] = LoopExit.capReached ∧
    (start_ws_iter 0 3 false AttemptOutcome.success).connection_attempts = 0 :=
  ⟨by decide,
   (C2_two_hour_cap 0 7201 ReadEvent.timeoutAlive [] 0 3 (by decide)).1,
   (C2_two_hour_cap 0 7201 ReadEvent.timeoutAlive [] 0 3 (by decide)).2.1⟩

/-- C9 counterexample: calling `stop()` on a supervisor that was never
started is not a state no-op — it sets the wrapper's shutdown event and
the client's `should_stop` flag. -/
theorem C9_stop_not_noop :
    GardenaSmartSystem.stop supervisor_init ≠ supervisor_init := by
  decide

/-- C9 (amended): `stop()` is idempotent — a second call leaves the state
of the first call unchanged — it raises no error (it is a total state
transformer), the connected flag is false after any call, and on a
supervisor that was never started it cancels no task and only records the
shutdown request (shutdown event and client stop flag). -/
theorem C9_stop_idempotent :
    ∀ s : SupervisorState,
      GardenaSmartSystem.stop (GardenaSmartSystem.stop s)
        = GardenaSmartSystem.stop s ∧
      is_websocket_connected (GardenaSmartSystem.stop s) = false ∧
      (s.ws_task = none →
        GardenaSmartSystem.stop s
          = { s with shutdown_event := true, should_stop := true }) := by
  intro s
  obtain ⟨se, wt, ss, c⟩ := s
  rcases wt with _ | t
  · exact ⟨rfl, rfl, fun _ => rfl⟩
  · cases t <;>
      exact ⟨rfl, rfl, fun h => by simp at h⟩

/-- C9 witness: the amended statement at the freshly initialised
supervisor. -/
theorem C9_stop_idempotent_witness :
    supervisor_init.ws_task = none ∧
    GardenaSmartSystem.stop supervisor_init
      = { supervisor_init with shutdown_event := true, should_stop := true } :=
  ⟨rfl, (C9_stop_idempotent supervisor_init).2.2 rfl⟩

/-- C5: `DeviceFactory.build` is a pure function of the grouped fragments
and dispatches on the present service types exactly as claimed: MOWER
present gives a Mower; otherwise SENSOR present gives a Sensor when its
first fragment has an `ambientTemperature` attribute and a SoilSensor when
it does not; otherwise POWER_SOCKET gives a PowerSocket; otherwise VALVE
gives a WaterControl for exactly one valve fragment and a
SmartIrrigationControl for more than one; with none of the recognized
types present it returns nothing and the device group is dropped.  The
constructed variants presuppose a nonempty COMMON group (see the
companion claim about the COMMON precondition). -/
theorem C5_factory_dispatch :
    (∀ dm : DeviceMap,
       dm.lookup "MOWER" = none → dm.lookup "SENSOR" = none →
       dm.lookup "POWER_SOCKET" = none → dm.lookup "VALVE" = none →
       DeviceFactory.build dm = Except.ok none) ∧
    ∀ (dm : DeviceMap) (f : Fragment) (fs : List Fragment),
      dm.lookup "COMMON" = some (f :: fs) →
      ((∃ ms, dm.lookup "MOWER" = some ms) →
        DeviceFactory.build dm
          = Except.ok (some { variant := DeviceVariant.mower, id := f.id })) ∧
      (dm.lookup "MOWER" = none →
        ∀ (g : Fragment) (gs : List Fragment),
          dm.lookup "SENSOR" = some (g :: gs) →
          ((g.attributes.lookup "ambientTemperature").isSome →
            DeviceFactory.build dm
              = Except.ok (some { variant := DeviceVariant.sensor, id := f.id })) ∧
          (g.attributes.lookup "ambientTemperature" = none →
            DeviceFactory.build dm
              = Except.ok
                  (some { variant := DeviceVariant.soilSensor, id := f.id }))) ∧
      (dm.lookup "MOWER" = none → dm.lookup "SENSOR" = none →
        (∃ ps, dm.lookup "POWER_SOCKET" = some ps) →
        DeviceFactory.build dm
          = Except.ok (some { variant := DeviceVariant.powerSocket, id := f.id })) ∧
      (dm.lookup "MOWER" = none → dm.lookup "SENSOR" = none →
        dm.lookup "POWER_SOCKET" = none →
        ∀ vs : List Fragment, dm.lookup "VALVE" = some vs →
          (vs.length = 1 →
            DeviceFactory.build dm
              = Except.ok
                  (some { variant := DeviceVariant.waterControl, id := f.id })) ∧
          (1 < vs.length →
            DeviceFactory.build dm
              = Except.ok
                  (some { variant := DeviceVariant.smartIrrigationControl,
                          id := f.id }))) := by
  constructor
  · intro dm hM hS hP hV
    simp only [DeviceFactory.build, hM, hS, hP, hV]
  · intro dm f fs hC
    refine ⟨?_, ?_, ?_, ?_⟩
    · rintro ⟨ms, hM⟩
      simp only [DeviceFactory.build, hM, Mower.build, common_id, hC, Except.map]
    · intro hM g gs hS
      constructor
      · intro hAmb
        simp only [DeviceFactory.build, hM, hS, if_pos hAmb, Sensor.build,
          common_id, hC, Except.map]
      · intro hAmb
        have : ¬ (g.attributes.lookup "ambientTemperature").isSome := by
          simp [hAmb]
        simp only [DeviceFactory.build, hM, hS, if_neg this, SoilSensor.build,
          common_id, hC, Except.map]
    · rintro hM hS ⟨ps, hP⟩
      simp only [DeviceFactory.build, hM, hS, hP, PowerSocket.build,
        common_id, hC, Except.map]
    · intro hM hS hP vs hV
      constructor
      · intro h1
        have : ¬ vs.length > 1 := by omega
        simp only [DeviceFactory.build, hM, hS, hP, hV, if_neg this,
          WaterControl.build, common_id, hC, Except.map]
      · intro h1
        have : vs.length > 1 := h1
        simp only [DeviceFactory.build, hM, hS, hP, hV, if_pos this,
          SmartIrrigationControl.build, common_id, hC, Except.map]

/-- C5 witness: the amended hypotheses and dispatch at a concrete mower
group and at a concrete two-valve irrigation group. -/
theorem C5_factory_dispatch_witness :
    ([("COMMON", [{ id := "device-1", type := "COMMON" }]),
      ("MOWER", [{ id := "device-1:MOWER", type := "MOWER" }])] :
        DeviceMap).lookup "COMMON"
      = some [{ id := "device-1", type := "COMMON" }] ∧
    DeviceFactory.build
        [("COMMON", [{ id := "device-1", type := "COMMON" }]),
         ("MOWER", [{ id := "device-1:MOWER", type := "MOWER" }])]
      = Except.ok (some { variant := DeviceVariant.mower, id := "device-1" }) ∧
    DeviceFactory.build
        [("COMMON", [{ id := "device-2", type := "COMMON" }]),
         ("VALVE", [{ id := "device-2:VALVE-a", type := "VALVE" },
                    { id := "device-2:VALVE-b", type := "VALVE" }])]
      = Except.ok
          (some { variant := DeviceVariant.smartIrrigationControl,
                  id := "device-2" }) := by
  refine ⟨rfl, ?_, ?_⟩
  · exact ((C5_factory_dispatch.2
      [("COMMON", [{ id := "device-1", type := "COMMON" }]),
       ("MOWER", [{ id := "device-1:MOWER", type := "MOWER" }])]
      { id := "device-1", type := "COMMON" } [] rfl).1
      ⟨[{ id := "device-1:MOWER", type := "MOWER" }], rfl⟩)
  · exact (((C5_factory_dispatch.2
      [("COMMON", [{ id := "device-2", type := "COMMON" }]),
       ("VALVE", [{ id := "device-2:VALVE-a", type := "VALVE" },
                  { id := "device-2:VALVE-b", type := "VALVE" }])]
      { id := "device-2", type := "COMMON" } [] rfl).2.2.2 rfl rfl rfl
      [{ id := "device-2:VALVE-a", type := "VALVE" },
       { id := "device-2:VALVE-b", type := "VALVE" }] rfl).2
      (by decide))

/-- Every branch of the factory either drops the group, raises, or builds
through `common_id` with a constructor that stores the id it is given. -/
theorem build_shape (dm : DeviceMap) :
    DeviceFactory.build dm = Except.ok none ∨
    (∃ e, DeviceFactory.build dm = Except.error e) ∨
    ∃ g : String → Device, (∀ i, (g i).id = i) ∧
      DeviceFactory.build dm = ((common_id dm).map g).map some := by
  unfold DeviceFactory.build
  split
  · exact Or.inr (Or.inr
      ⟨fun i => { variant := DeviceVariant.mower, id := i }, fun i => rfl, rfl⟩)
  split
  · exact Or.inr (Or.inl ⟨PyErr.indexError, rfl⟩)
  · split
    · exact Or.inr (Or.inr
        ⟨fun i => { variant := DeviceVariant.sensor, id := i }, fun i => rfl, rfl⟩)
    · exact Or.inr (Or.inr
        ⟨fun i => { variant := DeviceVariant.soilSensor, id := i }, fun i => rfl,
         rfl⟩)
  split
  · exact Or.inr (Or.inr
      ⟨fun i => { variant := DeviceVariant.powerSocket, id := i }, fun i => rfl,
       rfl⟩)
  split
  · split
    · exact Or.inr (Or.inr
        ⟨fun i => { variant := DeviceVariant.smartIrrigationControl, id := i },
         fun i => rfl, rfl⟩)
    · exact Or.inr (Or.inr
        ⟨fun i => { variant := DeviceVariant.waterControl, id := i },
         fun i => rfl, rfl⟩)
  · exact Or.inl rfl

/-- Inversion of a successful `common_id` read. -/
theorem common_id_ok (dm : DeviceMap) (i : String)
    (h : common_id dm = Except.ok i) :
    ∃ f fs, dm.lookup "COMMON" = some (f :: fs) ∧ i = f.id := by
  unfold common_id at h
  rcases hC : dm.lookup "COMMON" with _ | l
  · rw [hC] at h; exact absurd h (by simp)
  · rcases l with _ | ⟨f, fs⟩
    · rw [hC] at h; exact absurd h (by simp)
    · rw [hC] at h
      exact ⟨f, fs, rfl, by injection h with h; exact h.symm⟩

/-- Inversion of a successful doubly-mapped `Except`, the shape every
factory branch has. -/
theorem map_some_ok {α β : Type} (x : Except PyErr α) (g : α → β) (b : β)
    (h : (x.map g).map some = Except.ok (some b)) :
    ∃ a, x = Except.ok a ∧ g a = b := by
  rcases x with e | a
  · exact absurd h (by simp [Except.map])
  · refine ⟨a, rfl, ?_⟩
    simp only [Except.map] at h
    injection h with h
    injection h with h

/-- C10: every variant constructor the factory dispatches to reads
`device_map["COMMON"][0]["id"]`, so a fragment group with a recognized
service type (a MOWER group, or exactly one VALVE fragment) but no COMMON
group makes `build` raise `KeyError` instead of returning a device or
returning nothing; and every successfully constructed device takes its id
from the first fragment of the COMMON group. -/
theorem C10_common_precondition :
    (∀ dm : DeviceMap, dm.lookup "COMMON" = none →
       ((∃ ms, dm.lookup "MOWER" = some ms) →
         DeviceFactory.build dm = Except.error PyErr.keyError) ∧
       (dm.lookup "MOWER" = none → dm.lookup "SENSOR" = none →
        dm.lookup "POWER_SOCKET" = none →
        ∀ v : Fragment, dm.lookup "VALVE" = some [v] →
          DeviceFactory.build dm = Except.error PyErr.keyError)) ∧
    ∀ (dm : DeviceMap) (d : Device),
      DeviceFactory.build dm = Except.ok (some d) →
      ∃ f fs, dm.lookup "COMMON" = some (f :: fs) ∧ d.id = f.id := by
  constructor
  · intro dm hC
    constructor
    · rintro ⟨ms, hM⟩
      simp only [DeviceFactory.build, hM, Mower.build, common_id, hC,
        Except.map]
    · intro hM hS hP v hV
      simp only [DeviceFactory.build, hM, hS, hP, hV, List.length_singleton,
        gt_iff_lt, lt_irrefl, if_false, WaterControl.build, common_id, hC,
        Except.map]
  · intro dm d h
    rcases build_shape dm with h0 | he | hg
    · rw [h0] at h
      exact absurd h (by simp)
    · obtain ⟨e, he⟩ := he
      rw [he] at h
      exact absurd h (by simp)
    · obtain ⟨g, hg, heq⟩ := hg
      rw [heq] at h
      obtain ⟨i, hi, hd⟩ := map_some_ok _ _ _ h
      obtain ⟨f, fs, hC, hif⟩ := common_id_ok _ _ hi
      refine ⟨f, fs, hC, ?_⟩
      rw [← hd, hg i, hif]

/-- C10 witness: a mower group without COMMON raises `KeyError`; a mower
group with COMMON yields a device whose id is the COMMON fragment's. -/
theorem C10_common_precondition_witness :
    (([("MOWER", [{ id := "device-3:MOWER", type := "MOWER" }])] :
         DeviceMap).lookup "COMMON" = none) ∧
    DeviceFactory.build
        [("MOWER", [{ id := "device-3:MOWER", type := "MOWER" }])]
      = Except.error PyErr.keyError ∧
    ∃ f fs,
      ([("COMMON", [{ id := "device-1", type := "COMMON" }]),
        ("MOWER", [{ id := "device-1:MOWER", type := "MOWER" }])] :
          DeviceMap).lookup "COMMON" = some (f :: fs) ∧
      ({ variant := DeviceVariant.mower, id := "device-1" } : Device).id = f.id :=
  ⟨rfl,
   (C10_common_precondition.1
      [("MOWER", [{ id := "device-3:MOWER", type := "MOWER" }])] rfl).1
      ⟨[{ id := "device-3:MOWER", type := "MOWER" }], rfl⟩,
   C10_common_precondition.2
      [("COMMON", [{ id := "device-1", type := "COMMON" }]),
       ("MOWER", [{ id := "device-1:MOWER", type := "MOWER" }])]
      { variant := DeviceVariant.mower, id := "device-1" } rfl⟩

/-- Key membership after a dict assignment: the assigned key plus the old
keys. -/
theorem lookup_isSome_insertEntry {α : Type} (m : List (String × α))
    (k : String) (v : α) (kq : String) :
    ((insertEntry m k v).lookup kq).isSome = ((kq == k) || (m.lookup kq).isSome) := by
  induction m with
  | nil => cases hq : kq == k <;> simp [insertEntry, List.lookup, hq]
  | cons p m ih =>
      obtain ⟨a, b⟩ := p
      by_cases hak : a = k
      · subst hak
        cases hq : kq == a <;> simp [insertEntry, List.lookup, hq]
      · cases hq : kq == a <;> cases hqk : kq == k <;>
          simp [insertEntry, List.lookup, hak, hq, hqk, ih]

/-- Key membership after folding the per-entry insertions of
`update_locations` over an accumulator. -/
theorem lookup_isSome_foldl_insert (entries : List Fragment)
    (m : List (String × LocationState)) (k : String) :
    (((entries.foldl (fun acc e => insertEntry acc e.id (Location.build e))
        m).lookup k).isSome)
      = ((entries.any fun e => k == e.id) || (m.lookup k).isSome) := by
  induction entries generalizing m with
  | nil => simp
  | cons e es ih =>
      simp only [List.foldl_cons, List.any_cons, ih, lookup_isSome_insertEntry]
      cases k == e.id <;> cases (m.lookup k).isSome <;>
        cases hb : es.any fun e => k == e.id <;> simp [hb]

/-- C6: `update_locations` raises `ConnectionError` exactly when the GET
response is empty (a `None` return), has no "data" key, or contains zero
locations; on every error path the previously held location map is
unchanged; and on success the rebuilt map contains exactly the locations
of the response (a key is present in the new map precisely when it is the
id of some response entry, regardless of the old map). -/
theorem C6_update_locations :
    ∀ (locs : List (String × LocationState)) (resp : LocationsResponse),
      ((update_locations locs resp).1 = Except.error () ↔
        resp = LocationsResponse.empty ∨ resp = LocationsResponse.noData ∨
        ∃ entries, resp = LocationsResponse.data entries ∧
          entries.length < 1) ∧
      ((update_locations locs resp).1 = Except.error () →
        (update_locations locs resp).2 = locs) ∧
      ∀ entries : List Fragment, resp = LocationsResponse.data entries →
        1 ≤ entries.length →
        (update_locations locs resp).1 = Except.ok () ∧
        ∀ k : String,
          (((update_locations locs resp).2.lookup k).isSome = true ↔
            k ∈ entries.map Fragment.id) := by
  intro locs resp
  rcases resp with _ | _ | entries
  · refine ⟨by simp [update_locations], fun _ => rfl, ?_⟩
    intro entries h
    exact absurd h (by simp)
  · refine ⟨by simp [update_locations], fun _ => rfl, ?_⟩
    intro entries h
    exact absurd h (by simp)
  · by_cases hlen : entries.length < 1
    · refine ⟨?_, ?_, ?_⟩
      · simp only [update_locations, if_pos hlen]
        simp only [true_iff]
        exact Or.inr (Or.inr ⟨entries, rfl, hlen⟩)
      · intro _
        simp only [update_locations, if_pos hlen]
      · intro entries2 h h1
        injection h with h
        subst h
        omega
    · refine ⟨?_, ?_, ?_⟩
      · simp only [update_locations, if_neg hlen]
        constructor
        · intro h
          exact absurd h (by simp)
        · rintro (h | h | ⟨entries2, h, h2⟩)
          · exact absurd h (by simp)
          · exact absurd h (by simp)
          · injection h with h
            subst h
            exact absurd h2 hlen
      · intro h
        simp only [update_locations, if_neg hlen] at h
        exact absurd h (by simp)
      · intro entries2 h h1
        injection h with h
        subst h
        refine ⟨by simp only [update_locations, if_neg hlen], ?_⟩
        intro k
        simp only [update_locations, if_neg hlen]
        rw [lookup_isSome_foldl_insert]
        simp only [List.lookup, Option.isSome_none, Bool.or_false,
          List.any_eq_true, beq_iff_eq, List.mem_map]
        constructor
        · rintro ⟨e, he, hk⟩
          exact ⟨e, he, hk.symm⟩
        · rintro ⟨e, he, hk⟩
          exact ⟨e, he, hk.symm⟩

/-- C6 witness: a one-location response replaces a map previously holding
a different location. -/
theorem C6_update_locations_witness :
    1 ≤ ([{ id := "loc-1", type := "LOCATION" }] : List Fragment).length ∧
    (update_locations [("old", { id := "old" })]
        (LocationsResponse.data [{ id := "loc-1", type := "LOCATION" }])).1
      = Except.ok () ∧
    (((update_locations [("old", { id := "old" })]
        (LocationsResponse.data
          [{ id := "loc-1", type := "LOCATION" }])).2.lookup
        "loc-1").isSome = true) :=
  ⟨by decide,
   ((C6_update_locations [("old", { id := "old" })]
      (LocationsResponse.data [{ id := "loc-1", type := "LOCATION" }])).2.2
      [{ id := "loc-1", type := "LOCATION" }] rfl (by decide)).1,
   (((C6_update_locations [("old", { id := "old" })]
      (LocationsResponse.data [{ id := "loc-1", type := "LOCATION" }])).2.2
      [{ id := "loc-1", type := "LOCATION" }] rfl (by decide)).2 "loc-1").mpr
      (by simp)⟩

/-- Reading a common field after writing that same field. -/
theorem get_set_self (s : CommonState) (f : CommonField) (v : Value) :
    (s.set f v).get f = v := by
  cases f <;> rfl

/-- Reading a common field after writing a different field. -/
theorem get_set_ne (s : CommonState) (f g : CommonField) (v : Value)
    (h : f ≠ g) : (s.set g v).get f = s.get f := by
  cases f <;> cases g <;> simp_all [CommonState.set, CommonState.get]

/-- `set_attribute_value` leaves every field other than its target
unchanged, whatever the attribute map holds. -/
theorem get_sav_ne (s : CommonState) (f g : CommonField)
    (frag : Fragment) (n : String) (h : f ≠ g) :
    (set_attribute_value s g frag n).get f = s.get f := by
  unfold set_attribute_value
  cases frag.attributes.lookup n
  · rfl
  · exact get_set_ne s f g _ h

/-- `set_attribute_value` with the attribute absent is the identity. -/
theorem sav_none (s : CommonState) (f : CommonField) (frag : Fragment)
    (n : String) (h : frag.attributes.lookup n = none) :
    set_attribute_value s f frag n = s := by
  simp [set_attribute_value, h]

/-- `set_attribute_value` with the attribute present writes its value. -/
theorem sav_some (s : CommonState) (f : CommonField) (frag : Fragment)
    (n : String) (v : Value) (h : frag.attributes.lookup n = some v) :
    set_attribute_value s f frag n = s.set f v := by
  simp [set_attribute_value, h]

/-- What `update_common_data` leaves in each common field: the fragment's
value for that field's attribute name when present, the previous value
otherwise. -/
theorem get_update_common (s : CommonState) (frag : Fragment)
    (f : CommonField) :
    (update_common_data s frag).get f
      = (match frag.attributes.lookup f.attrName with
         | some v => v
         | none => s.get f) := by
  cases f
  case battery_level =>
    simp only [update_common_data]
    rw [get_sav_ne _ _ _ _ _ (by decide),
      get_sav_ne _ _ _ _ _ (by decide),
      get_sav_ne _ _ _ _ _ (by decide),
      get_sav_ne _ _ _ _ _ (by decide),
      get_sav_ne _ _ _ _ _ (by decide),
      get_sav_ne _ _ _ _ _ (by decide)]
    rcases h : frag.attributes.lookup "batteryLevel" with _ | v
    · rw [sav_none _ _ _ _ h]
      simp only [CommonField.attrName, h]
    · rw [sav_some _ _ _ _ _ h, get_set_self]
      simp only [CommonField.attrName, h]
  case battery_state =>
    simp only [update_common_data]
    rw [get_sav_ne _ _ _ _ _ (by decide),
      get_sav_ne _ _ _ _ _ (by decide),
      get_sav_ne _ _ _ _ _ (by decide),
      get_sav_ne _ _ _ _ _ (by decide),
      get_sav_ne _ _ _ _ _ (by decide)]
    rcases h : frag.attributes.lookup "batteryState" with _ | v
    · rw [sav_none _ _ _ _ h]
      rw [get_sav_ne _ _ _ _ _ (by decide)]
      simp only [CommonField.attrName, h]
    · rw [sav_some _ _ _ _ _ h, get_set_self]
      simp only [CommonField.attrName, h]
  case name =>
    simp only [update_common_data]
    rw [get_sav_ne _ _ _ _ _ (by decide),
      get_sav_ne _ _ _ _ _ (by decide),
      get_sav_ne _ _ _ _ _ (by decide),
      get_sav_ne _ _ _ _ _ (by decide)]
    rcases h : frag.attributes.lookup "name" with _ | v
    · rw [sav_none _ _ _ _ h]
      rw [get_sav_ne _ _ _ _ _ (by decide),
        get_sav_ne _ _ _ _ _ (by decide)]
      simp only [CommonField.attrName, h]
    · rw [sav_some _ _ _ _ _ h, get_set_self]
      simp only [CommonField.attrName, h]
  case rf_link_level =>
    simp only [update_common_data]
    rw [get_sav_ne _ _ _ _ _ (by decide),
      get_sav_ne _ _ _ _ _ (by decide),
      get_sav_ne _ _ _ _ _ (by decide)]
    rcases h : frag.attributes.lookup "rfLinkLevel" with _ | v
    · rw [sav_none _ _ _ _ h]
      rw [get_sav_ne _ _ _ _ _ (by decide),
        get_sav_ne _ _ _ _ _ (by decide),
        get_sav_ne _ _ _ _ _ (by decide)]
      simp only [CommonField.attrName, h]
    · rw [sav_some _ _ _ _ _ h, get_set_self]
      simp only [CommonField.attrName, h]
  case rf_link_state =>
    simp only [update_common_data]
    rw [get_sav_ne _ _ _ _ _ (by decide),
      get_sav_ne _ _ _ _ _ (by decide)]
    rcases h : frag.attributes.lookup "rfLinkState" with _ | v
    · rw [sav_none _ _ _ _ h]
      rw [get_sav_ne _ _ _ _ _ (by decide),
        get_sav_ne _ _ _ _ _ (by decide),
        get_sav_ne _ _ _ _ _ (by decide),
        get_sav_ne _ _ _ _ _ (by decide)]
      simp only [CommonField.attrName, h]
    · rw [sav_some _ _ _ _ _ h, get_set_self]
      simp only [CommonField.attrName, h]
  case serial =>
    simp only [update_common_data]
    rw [get_sav_ne _ _ _ _ _ (by decide)]
    rcases h : frag.attributes.lookup "serial" with _ | v
    · rw [sav_none _ _ _ _ h]
      rw [get_sav_ne _ _ _ _ _ (by decide),
        get_sav_ne _ _ _ _ _ (by decide),
        get_sav_ne _ _ _ _ _ (by decide),
        get_sav_ne _ _ _ _ _ (by decide),
        get_sav_ne _ _ _ _ _ (by decide)]
      simp only [CommonField.attrName, h]
    · rw [sav_some _ _ _ _ _ h, get_set_self]
      simp only [CommonField.attrName, h]
  case model_type =>
    simp only [update_common_data]
    rcases h : frag.attributes.lookup "modelType" with _ | v
    · rw [sav_none _ _ _ _ h]
      rw [get_sav_ne _ _ _ _ _ (by decide),
        get_sav_ne _ _ _ _ _ (by decide),
        get_sav_ne _ _ _ _ _ (by decide),
        get_sav_ne _ _ _ _ _ (by decide),
        get_sav_ne _ _ _ _ _ (by decide),
        get_sav_ne _ _ _ _ _ (by decide)]
      simp only [CommonField.attrName, h]
    · rw [sav_some _ _ _ _ _ h, get_set_self]
      simp only [CommonField.attrName, h]

/-- C8: applying a COMMON fragment whose attribute map carries
`batteryLevel = 42` sets the battery level to 42 and leaves every other
field unchanged; a COMMON fragment without `batteryLevel` leaves the prior
battery level untouched; and in general each common attribute is applied
exactly when present in the fragment's attribute map. -/
theorem C8_common_attribute_application :
    (∀ (s : CommonState) (i : String),
       update_data s
           { id := i, type := "COMMON",
             attributes := [("batteryLevel", Value.int 42)] }
         = { s with battery_level := Value.int 42 }) ∧
    (∀ (s : CommonState) (frag : Fragment) (f : CommonField),
       frag.type = "COMMON" →
       (frag.attributes.lookup f.attrName = none →
         (update_data s frag).get f = s.get f) ∧
       (∀ v : Value, frag.attributes.lookup f.attrName = some v →
         (update_data s frag).get f = v)) ∧
    (∀ (s : CommonState) (frag : Fragment),
       frag.type = "COMMON" →
       frag.attributes.lookup "batteryLevel" = none →
       (update_data s frag).battery_level = s.battery_level) := by
  refine ⟨fun s i => rfl, ?_, ?_⟩
  · intro s frag f htype
    constructor
    · intro habs
      simp only [update_data, if_pos htype, get_update_common, habs]
    · intro v hv
      simp only [update_data, if_pos htype, get_update_common, hv]
  · intro s frag htype habs
    simp only [update_data, if_pos htype]
    have h := get_update_common s frag CommonField.battery_level
    simp only [CommonField.attrName, habs] at h
    exact h

/-- C8 witness: a COMMON fragment carrying only a name leaves the battery
level at its prior value. -/
theorem C8_common_attribute_application_witness :
    ({ id := "d1:COMMON", type := "COMMON",
       attributes := [("name", Value.str "MyMower")] } : Fragment).type
      = "COMMON" ∧
    ({ id := "d1:COMMON", type := "COMMON",
       attributes := [("name", Value.str "MyMower")] } :
        Fragment).attributes.lookup CommonField.battery_level.attrName
      = none ∧
    (update_data {}
        { id := "d1:COMMON", type := "COMMON",
          attributes := [("name", Value.str "MyMower")] }).get
        CommonField.battery_level
      = ({} : CommonState).get CommonField.battery_level :=
  ⟨rfl, rfl,
   (C8_common_attribute_application.2.1 {}
      { id := "d1:COMMON", type := "COMMON",
        attributes := [("name", Value.str "MyMower")] }
      CommonField.battery_level rfl).1 rfl⟩

end Gardena
